import Mathlib

/-
Verification development for the jupiter-scada OPC UA client
(src/jupiter_scada/opcua/client.py).

The client state is embedded with explicit reference semantics: Python's
`_data_store` dict maps tag names to object references (`Ref`), and a `heap`
maps each reference to the current `LiveTag` record.  This mirrors the
source, where `get_all_tags` returns `list(self._data_store.values())` (a
fresh list whose elements alias the live objects) and
`update_tag_value_from_node` mutates those objects in place.

Transport behaviour (connect success, node resolution, subscription
success, bulk-read results, current UTC time) is supplied by an `Env`
record, so each method is a pure function of the state and the
environment.
-/

set_option linter.unusedVariables false

namespace JupiterScada

/-- Object identity of a Python `LiveTag` instance. -/
abbrev Ref := Nat

/-- Opaque identity of an `asyncua` node object (a subscription handle). -/
abbrev NodeId := Nat

/-- The `LiveTag` record as the client uses it: fields `name`, `node_id`,
`value`, `status`, `timestamp` (client.py lines 91-97, 217-219). -/
structure LiveTag where
  name : String
  node_id : String
  value : Option Int
  status : String
  timestamp : Option Nat
deriving Repr, DecidableEq

/-- The parts of an `asyncua` `DataValue` the client reads:
`.Value.Value`, `.StatusCode.name`, `.SourceTimestamp`. -/
structure DataValue where
  value : Option Int
  statusName : String
  sourceTimestamp : Option Nat
deriving Repr, DecidableEq

/-- A configured tag: `name` and `node_id` (models.opc.TagConfig). -/
structure TagConfig where
  name : String
  node_id : String
deriving Repr, DecidableEq

/-- One entry of `settings.opc_tags`: a group with a list of tags. -/
structure TagGroup where
  tags : List TagConfig
deriving Repr, DecidableEq

/-- The flattened tag list `[tag for group in settings.opc_tags for tag in group.tags]`. -/
def configTags (gs : List TagGroup) : List TagConfig := gs.flatMap (·.tags)

/-- The configured tag names, in configuration order. -/
def tagNames (gs : List TagGroup) : List String := (configTags gs).map (·.name)

/-- Association-list lookup: Python `dict.get`. -/
def alookup {α β : Type} [DecidableEq α] : List (α × β) → α → Option β
  | [], _ => none
  | (k, v) :: rest, a => if k = a then some v else alookup rest a

/-- Association-list insert keeping the original key position on overwrite:
Python `d[k] = v`. -/
def dinsert {α β : Type} [DecidableEq α] (a : α) (b : β) : List (α × β) → List (α × β)
  | [] => [(a, b)]
  | (k, v) :: rest => if k = a then (a, b) :: rest else (k, v) :: dinsert a b rest

/-- In-place mutation of the object stored at one key (all other entries
untouched): Python attribute assignment through an aliased reference. -/
def aupdate {α β : Type} [DecidableEq α] (a : α) (f : β → β) : List (α × β) → List (α × β)
  | [] => []
  | (k, v) :: rest => if k = a then (k, f v) :: rest else (k, v) :: aupdate a f rest

/-- The mutable state of an `OpcuaClient` instance:
`_is_connected`, `_running`, `_data_store` (as name → object reference plus
a heap of the objects themselves), `_node_map`, and `subscription`
(modelled as a flag: whether a subscription object is held). -/
structure ClientState where
  is_connected : Bool
  running : Bool
  store : List (String × Ref)
  heap : List (Ref × LiveTag)
  node_map : List (NodeId × String)
  subscription : Bool
deriving Repr, DecidableEq

/-- Outcomes supplied by the transport and the clock during one sequence of
calls: whether `client.connect()` succeeds, whether `create_subscription`
succeeds, how `client.get_node` resolves a node-id string (`none` models a
`UaError`), whether `subscribe_data_change` succeeds, whether the bulk read
succeeds and what it returns, whether `client.disconnect()` raises, and the
current value of `datetime.utcnow()`. -/
structure Env where
  connect_ok : Bool
  create_sub_ok : Bool
  get_node : String → Option NodeId
  subscribe_ok : Bool
  read_ok : Bool
  read_data : NodeId → DataValue
  write_ok : Bool
  disconnect_raises : Bool
  now : Nat

/-- The `LiveTag` object `_initialize_data_store` creates for one configured
tag (client.py 91-97): null value, status "Uncertain", timestamp now. -/
def initialTag (now : Nat) (tag : TagConfig) : LiveTag :=
  { name := tag.name, node_id := tag.node_id, value := none,
    status := "Uncertain", timestamp := some now }

/-- `_initialize_data_store` (client.py 87-97): one fresh `LiveTag` object per
configured tag, inserted under the tag's name; `next` is the next unused
object identity. -/
def init_data_store_loop (now : Nat) :
    List TagConfig → Nat → List (String × Ref) → List (Ref × LiveTag) →
    List (String × Ref) × List (Ref × LiveTag)
  | [], _, st, h => (st, h)
  | tag :: rest, next, st, h =>
      init_data_store_loop now rest (next + 1) (dinsert tag.name next st)
        (h ++ [(next, initialTag now tag)])

/-- `OpcuaClient.__init__` (client.py 70-85): flags false, empty node map,
no subscription, then `_initialize_data_store`. -/
def mkOpcuaClient (gs : List TagGroup) (now : Nat) : ClientState :=
  let p := init_data_store_loop now (configTags gs) 0 [] []
  { is_connected := false, running := false, store := p.1, heap := p.2,
    node_map := [], subscription := false }

/-- `OpcuaClient.connect` (client.py 144-149): on transport success set
`_is_connected := true`; on transport failure the exception propagates with
the state unchanged. -/
def connect (s : ClientState) (env : Env) : Except Unit ClientState :=
  if env.connect_ok then Except.ok { s with is_connected := true }
  else Except.error ()

/-- `OpcuaClient.disconnect` (client.py 151-162): only acts when
`is_connected`; the transport disconnect runs in a `try` whose `except`
swallows any error and whose `finally` always clears `_is_connected`,
`subscription` and `_node_map`.  The data store is not touched. -/
def disconnect (s : ClientState) (env : Env) : ClientState :=
  if s.is_connected then
    { s with is_connected := false, subscription := false, node_map := [] }
  else s

/-- `OpcuaClient.update_tag_value_from_node` (client.py 207-222): look the
node up in `_node_map` (an empty-string name is falsy in Python and also
discarded); if mapped and the name is in `_data_store`, mutate that
`LiveTag` object's `value`, `status` and `timestamp` fields in place,
using `SourceTimestamp or datetime.utcnow()` for the timestamp. -/
def update_tag_value_from_node (s : ClientState) (node : NodeId) (dv : DataValue)
    (now : Nat) : ClientState :=
  match alookup s.node_map node with
  | none => s
  | some tag_name =>
      if tag_name = "" then s
      else
        match alookup s.store tag_name with
        | none => s
        | some r =>
            { s with heap := aupdate r (fun t =>
                { t with value := dv.value, status := dv.statusName,
                         timestamp := some (dv.sourceTimestamp.getD now) }) s.heap }

/-- `OpcuaClient._populate_initial_data` (client.py 194-205): bulk read of
all subscribed nodes, then `update_tag_value_from_node` per node; a read
failure is caught and leaves the state unchanged. -/
def populate_initial_data (s : ClientState) (nodes : List NodeId) (env : Env) :
    ClientState :=
  if env.read_ok then
    nodes.foldl (fun st n => update_tag_value_from_node st n (env.read_data n) env.now) s
  else s

/-- The node-resolution loop of `_initialize_subscriptions` (client.py
176-182): each configured tag whose `node_id` resolves contributes its
node and name; a `UaError` tag is skipped. -/
def resolvedNodes (gs : List TagGroup) (env : Env) : List (NodeId × String) :=
  (configTags gs).filterMap (fun t => (env.get_node t.node_id).map (fun n => (n, t.name)))

/-- The state after `create_subscription` succeeded and the resolution
loop ran: `subscription` held, resolved nodes recorded in `_node_map`. -/
def build_node_map (s : ClientState) (gs : List TagGroup) (env : Env) : ClientState :=
  { s with subscription := true,
           node_map := (resolvedNodes gs env).foldl (fun m p => dinsert p.1 p.2 m) s.node_map }

/-- `OpcuaClient._initialize_subscriptions` (client.py 164-192): no-op if
not connected; create the subscription (failure is caught by the method's
own `except`, which calls `disconnect`); resolve each configured tag's
node, skipping `UaError` tags, recording resolved nodes in `_node_map`;
if any node resolved, subscribe (failure again caught, `disconnect`) and
seed the cache through `_populate_initial_data`. -/
def init_subscriptions (s : ClientState) (gs : List TagGroup) (env : Env) :
    ClientState :=
  if !s.is_connected then s
  else if !env.create_sub_ok then disconnect s env
  else if (resolvedNodes gs env).isEmpty then build_node_map s gs env
  else if !env.subscribe_ok then disconnect (build_node_map s gs env) env
  else populate_initial_data (build_node_map s gs env)
        ((resolvedNodes gs env).map Prod.fst) env

/-- One pass of the `_connection_manager` loop body (client.py 130-142):
when not connected, try `connect` then `_initialize_subscriptions`; a
`connect` failure lands in the `except`, which calls `disconnect`. -/
def connection_manager_iter (s : ClientState) (gs : List TagGroup) (env : Env) :
    ClientState :=
  if s.is_connected then s
  else
    match connect s env with
    | Except.error _ => disconnect s env
    | Except.ok s1 => init_subscriptions s1 gs env

/-- `OpcuaClient.start` (client.py 104-112): no-op when already running,
otherwise set `_running` and launch the supervisory loop. -/
def start (s : ClientState) : ClientState :=
  if s.running then s else { s with running := true }

/-- `OpcuaClient.stop` (client.py 114-128): no-op when not running,
otherwise clear `_running`, cancel the loop and `disconnect`. -/
def stop (s : ClientState) (env : Env) : ClientState :=
  if !s.running then s
  else disconnect { s with running := false } env

/-- `OpcuaClient.get_all_tags` (client.py 224-233):
`list(self._data_store.values())` — a fresh list whose elements are the
live object references. -/
def get_all_tags (s : ClientState) : List Ref := s.store.map Prod.snd

/-- `OpcuaClient.get_tag_by_name` (client.py 235-247):
`self._data_store.get(name)` — the live object reference, or `None`. -/
def get_tag_by_name (s : ClientState) (name : String) : Option Ref :=
  alookup s.store name

/-- What a caller holding a reference observes when reading its fields. -/
def readRef (s : ClientState) (r : Ref) : Option LiveTag :=
  alookup s.heap r

/-- `OpcuaClient.read_value` (client.py 249-268): raises when not
connected; otherwise resolves and reads the node, propagating failures.
No path assigns to any client attribute, so the state passes through. -/
def read_value (s : ClientState) (env : Env) (nid : String) :
    ClientState × Except Unit DataValue :=
  if !s.is_connected then (s, Except.error ())
  else
    match env.get_node nid with
    | none => (s, Except.error ())
    | some n => if env.read_ok then (s, Except.ok (env.read_data n)) else (s, Except.error ())

/-- `OpcuaClient.write_value` (client.py 270-288): raises when not
connected; otherwise writes through the transport, propagating failures.
No path assigns to any client attribute, so the state passes through. -/
def write_value (s : ClientState) (env : Env) (nid : String) (v : Int) :
    ClientState × Except Unit Unit :=
  if !s.is_connected then (s, Except.error ())
  else
    match env.get_node nid with
    | none => (s, Except.error ())
    | some _n => if env.write_ok then (s, Except.ok ()) else (s, Except.error ())

/-- The state in the caller's hands after `await self.connect()` inside the
supervisory loop: the new state on success, the unchanged state when the
transport raised (the exception propagates before any attribute is set). -/
def connectResultState (s : ClientState) (env : Env) : ClientState :=
  match connect s env with
  | Except.ok s1 => s1
  | Except.error _ => s

/-! ### Concrete configurations and transport environments for witnesses -/

/-- One group with a single tag `A` at node-id string `n1`. -/
def cfgA : List TagGroup := [{ tags := [{ name := "A", node_id := "n1" }] }]

/-- One group with tags `A` and `B`. -/
def cfgAB : List TagGroup :=
  [{ tags := [{ name := "A", node_id := "n1" }, { name := "B", node_id := "n2" }] }]

/-- A data change carrying value 10, status Good, source timestamp 5. -/
def dvGood : DataValue := { value := some 10, statusName := "Good", sourceTimestamp := some 5 }

/-- A healthy transport: everything succeeds, `n1` resolves to handle 1,
every read returns `dvGood`, the clock reads 7. -/
def envLive : Env :=
  { connect_ok := true, create_sub_ok := true,
    get_node := fun nid => if nid = "n1" then some 1 else none,
    subscribe_ok := true, read_ok := true,
    read_data := fun _ => dvGood,
    write_ok := true, disconnect_raises := false, now := 7 }

/-- The transport with the connection attempt failing. -/
def envDown : Env := { envLive with connect_ok := false }

/-- The healthy transport but with the initial bulk read failing, so no
data arrives. -/
def envSilent : Env := { envLive with read_ok := false }

/-- The healthy transport whose `disconnect` raises. -/
def envRaises : Env := { envLive with disconnect_raises := true }

/-- A fresh client configured with `cfgA` at time 0. -/
def s0A : ClientState := mkOpcuaClient cfgA 0

/-- After one healthy supervisory pass: connected, subscribed, tag `A`
seeded with `dvGood`. -/
def sLiveA : ClientState := connection_manager_iter s0A cfgA envLive

/-- After the session is torn down (`disconnect`). -/
def sDropA : ClientState := disconnect sLiveA envLive

/-- After a failed reconnect attempt from the torn-down state (the loop's
`except` branch ran `disconnect` again). -/
def sRetryA : ClientState := connection_manager_iter sDropA cfgA envDown

/-- A healthy connection whose initial bulk read failed: connected and
subscribed, but no tag has received data yet. -/
def sSilentA : ClientState := connection_manager_iter s0A cfgA envSilent

/-! ### Association-list lemmas -/

theorem alookup_dinsert_self {α β : Type} [DecidableEq α] (a : α) (b : β)
    (l : List (α × β)) : alookup (dinsert a b l) a = some b := by
  induction l with
  | nil => simp [dinsert, alookup]
  | cons p rest ih =>
      obtain ⟨k, v⟩ := p
      by_cases h : k = a
      · simp [dinsert, h, alookup]
      · simp [dinsert, h, alookup, ih]

theorem alookup_dinsert_ne {α β : Type} [DecidableEq α] (a : α) (b : β)
    (l : List (α × β)) (x : α) (hx : x ≠ a) :
    alookup (dinsert a b l) x = alookup l x := by
  induction l with
  | nil => simp [dinsert, alookup, Ne.symm hx]
  | cons p rest ih =>
      obtain ⟨k, v⟩ := p
      by_cases h : k = a
      · subst h
        simp [dinsert, alookup, Ne.symm hx]
      · by_cases h2 : k = x
        · subst h2
          simp [dinsert, alookup, h]
        · simp [dinsert, h, alookup, h2, ih]

theorem alookup_dinsert_isSome {α β : Type} [DecidableEq α] (a : α) (b : β)
    (l : List (α × β)) (x : α) :
    (alookup (dinsert a b l) x).isSome = true ↔
      x = a ∨ (alookup l x).isSome = true := by
  by_cases hx : x = a
  · subst hx
    simp [alookup_dinsert_self]
  · rw [alookup_dinsert_ne a b l x hx]
    simp [hx]

theorem mem_dinsert {α β : Type} [DecidableEq α] (a : α) (b : β)
    (l : List (α × β)) (p : α × β) (hp : p ∈ dinsert a b l) :
    p = (a, b) ∨ p ∈ l := by
  induction l with
  | nil => simpa [dinsert] using hp
  | cons q rest ih =>
      obtain ⟨k, v⟩ := q
      by_cases h : k = a
      · simp only [dinsert, h, if_pos rfl] at hp
        rcases List.mem_cons.mp hp with h1 | h1
        · exact Or.inl h1
        · exact Or.inr (List.mem_cons_of_mem _ h1)
      · simp only [dinsert, if_neg h] at hp
        rcases List.mem_cons.mp hp with h1 | h1
        · exact Or.inr (h1 ▸ List.mem_cons_self _ _)
        · rcases ih h1 with h2 | h2
          · exact Or.inl h2
          · exact Or.inr (List.mem_cons_of_mem _ h2)

theorem alookup_aupdate {α β : Type} [DecidableEq α] (a : α) (f : β → β)
    (l : List (α × β)) (x : α) :
    alookup (aupdate a f l) x =
      if x = a then (alookup l a).map f else alookup l x := by
  induction l with
  | nil => simp [aupdate, alookup]
  | cons p rest ih =>
      obtain ⟨k, v⟩ := p
      by_cases h : k = a
      · subst h
        by_cases h2 : x = k
        · subst h2
          simp [aupdate, alookup]
        · simp [aupdate, alookup, h2, Ne.symm h2]
      · by_cases h2 : k = x
        · subst h2
          simp [aupdate, alookup, h, Ne.symm h]
        · simp [aupdate, alookup, h, h2, ih]

theorem mem_aupdate {α β : Type} [DecidableEq α] (a : α) (f : β → β)
    (l : List (α × β)) (p : α × β) (hp : p ∈ aupdate a f l) :
    p ∈ l ∨ ∃ q, q ∈ l ∧ p = (q.1, f q.2) := by
  induction l with
  | nil => simp [aupdate] at hp
  | cons q rest ih =>
      obtain ⟨k, v⟩ := q
      simp only [aupdate] at hp
      by_cases h : k = a
      · rw [if_pos h] at hp
        rcases List.mem_cons.mp hp with h1 | h1
        · exact Or.inr ⟨(k, v), List.mem_cons_self _ _, h1⟩
        · exact Or.inl (List.mem_cons_of_mem _ h1)
      · rw [if_neg h] at hp
        rcases List.mem_cons.mp hp with h1 | h1
        · exact Or.inl (h1 ▸ List.mem_cons_self _ _)
        · rcases ih h1 with h2 | h2
          · exact Or.inl (List.mem_cons_of_mem _ h2)
          · obtain ⟨q2, hq2, hpq⟩ := h2
            exact Or.inr ⟨q2, List.mem_cons_of_mem _ hq2, hpq⟩

theorem alookup_append_some {α β : Type} [DecidableEq α] (l m : List (α × β))
    (x : α) (v : β) (h : alookup l x = some v) :
    alookup (l ++ m) x = some v := by
  induction l with
  | nil => simp [alookup] at h
  | cons p rest ih =>
      obtain ⟨k, w⟩ := p
      by_cases hk : k = x
      · simp [alookup, hk] at h ⊢
        exact h
      · simp [alookup, hk] at h ⊢
        exact ih h

theorem alookup_append_none {α β : Type} [DecidableEq α] (l m : List (α × β))
    (x : α) (h : alookup l x = none) :
    alookup (l ++ m) x = alookup m x := by
  induction l with
  | nil => simp
  | cons p rest ih =>
      obtain ⟨k, w⟩ := p
      by_cases hk : k = x
      · simp [alookup, hk] at h
      · simp [alookup, hk] at h ⊢
        exact ih h

theorem alookup_none_of_keys_lt {β : Type} (l : List (Nat × β)) (n : Nat)
    (h : ∀ q ∈ l, q.1 < n) : alookup l n = none := by
  induction l with
  | nil => rfl
  | cons p rest ih =>
      obtain ⟨k, v⟩ := p
      have hk : k < n := h (k, v) (List.mem_cons_self _ _)
      simp [alookup, Nat.ne_of_lt hk]
      exact ih (fun q hq => h q (List.mem_cons_of_mem _ hq))

/-- A property preserved by each fold step holds after the whole fold. -/
theorem foldl_preserve {σ α : Type} (P : σ → Prop) (step : σ → α → σ)
    (hstep : ∀ s a, P s → P (step s a)) :
    ∀ (l : List α) (s : σ), P s → P (l.foldl step s)
  | [], _, h => h
  | a :: l, s, h => foldl_preserve P step hstep l (step s a) (hstep s a h)

/-! ### Frame lemmas: which fields each operation can touch -/

theorem update_frame (s : ClientState) (node : NodeId) (dv : DataValue) (now : Nat) :
    (update_tag_value_from_node s node dv now).store = s.store ∧
    (update_tag_value_from_node s node dv now).node_map = s.node_map ∧
    (update_tag_value_from_node s node dv now).is_connected = s.is_connected ∧
    (update_tag_value_from_node s node dv now).running = s.running ∧
    (update_tag_value_from_node s node dv now).subscription = s.subscription := by
  unfold update_tag_value_from_node
  split
  · exact ⟨rfl, rfl, rfl, rfl, rfl⟩
  · split
    · exact ⟨rfl, rfl, rfl, rfl, rfl⟩
    · split
      · exact ⟨rfl, rfl, rfl, rfl, rfl⟩
      · exact ⟨rfl, rfl, rfl, rfl, rfl⟩

theorem update_store_eq (s : ClientState) (node : NodeId) (dv : DataValue) (now : Nat) :
    (update_tag_value_from_node s node dv now).store = s.store :=
  (update_frame s node dv now).1

/-- When the node is mapped to a non-empty name that is in the store, the
update is exactly an in-place mutation of the object at that reference. -/
theorem update_heap_hit (s : ClientState) (node : NodeId) (dv : DataValue) (now : Nat)
    (tag_name : String) (r : Ref)
    (h1 : alookup s.node_map node = some tag_name) (h2 : tag_name ≠ "")
    (h3 : alookup s.store tag_name = some r) :
    (update_tag_value_from_node s node dv now).heap =
      aupdate r (fun t =>
        { t with value := dv.value, status := dv.statusName,
                 timestamp := some (dv.sourceTimestamp.getD now) }) s.heap := by
  simp only [update_tag_value_from_node, h1, h3, if_neg h2]

theorem disconnect_store_eq (s : ClientState) (env : Env) :
    (disconnect s env).store = s.store := by
  unfold disconnect
  split <;> rfl

theorem disconnect_heap_eq (s : ClientState) (env : Env) :
    (disconnect s env).heap = s.heap := by
  unfold disconnect
  split <;> rfl

theorem disconnect_running_eq (s : ClientState) (env : Env) :
    (disconnect s env).running = s.running := by
  unfold disconnect
  split <;> rfl

theorem populate_store_eq (s : ClientState) (nodes : List NodeId) (env : Env) :
    (populate_initial_data s nodes env).store = s.store := by
  unfold populate_initial_data
  split
  · exact foldl_preserve (fun st => st.store = s.store) _
      (fun st n hh => (update_store_eq st n (env.read_data n) env.now).trans hh)
      nodes s rfl
  · rfl

theorem init_subs_store_eq (s : ClientState) (gs : List TagGroup) (env : Env) :
    (init_subscriptions s gs env).store = s.store := by
  unfold init_subscriptions
  split
  · rfl
  · split
    · exact disconnect_store_eq s env
    · split
      · rfl
      · split
        · exact disconnect_store_eq (build_node_map s gs env) env
        · exact populate_store_eq (build_node_map s gs env) _ env

theorem iter_store_eq (s : ClientState) (gs : List TagGroup) (env : Env) :
    (connection_manager_iter s gs env).store = s.store := by
  unfold connection_manager_iter connect
  by_cases hc : env.connect_ok = true
  · simp only [hc, if_true]
    split
    · rfl
    · exact init_subs_store_eq _ gs env
  · simp only [if_neg hc]
    split
    · rfl
    · exact disconnect_store_eq s env

theorem stop_store_eq (s : ClientState) (env : Env) :
    (stop s env).store = s.store := by
  unfold stop
  split
  · rfl
  · exact disconnect_store_eq _ env

theorem start_store_eq (s : ClientState) : (start s).store = s.store := by
  unfold start
  split <;> rfl

/-! ### Timestamps are never null (used by claim C9) -/

/-- Every `LiveTag` object on the heap carries a non-null timestamp. -/
def tsAll (s : ClientState) : Bool := s.heap.all (fun p => p.2.timestamp.isSome)

theorem tsAll_heap_eq {s t : ClientState} (h : t.heap = s.heap) : tsAll t = tsAll s := by
  unfold tsAll
  rw [h]

theorem tsAll_update (s : ClientState) (node : NodeId) (dv : DataValue) (now : Nat)
    (h : tsAll s = true) : tsAll (update_tag_value_from_node s node dv now) = true := by
  unfold update_tag_value_from_node
  split
  · exact h
  · split
    · exact h
    · split
      · exact h
      · simp only [tsAll, List.all_eq_true] at h ⊢
        intro p hp
        rcases mem_aupdate _ _ _ p hp with h1 | ⟨q, hq, hpq⟩
        · exact h p h1
        · subst hpq
          simp

theorem tsAll_populate (s : ClientState) (nodes : List NodeId) (env : Env)
    (h : tsAll s = true) : tsAll (populate_initial_data s nodes env) = true := by
  unfold populate_initial_data
  split
  · exact foldl_preserve (fun st => tsAll st = true) _
      (fun st n hh => tsAll_update st n (env.read_data n) env.now hh) nodes s h
  · exact h

theorem tsAll_disconnect (s : ClientState) (env : Env) (h : tsAll s = true) :
    tsAll (disconnect s env) = true := by
  rw [tsAll_heap_eq (disconnect_heap_eq s env)]
  exact h

theorem tsAll_init_subs (s : ClientState) (gs : List TagGroup) (env : Env)
    (h : tsAll s = true) : tsAll (init_subscriptions s gs env) = true := by
  have hb : tsAll (build_node_map s gs env) = true := by
    rw [tsAll_heap_eq (s := s)]
    · exact h
    · rfl
  unfold init_subscriptions
  split
  · exact h
  · split
    · exact tsAll_disconnect s env h
    · split
      · exact hb
      · split
        · exact tsAll_disconnect _ env hb
        · exact tsAll_populate _ _ env hb

theorem tsAll_iter (s : ClientState) (gs : List TagGroup) (env : Env)
    (h : tsAll s = true) : tsAll (connection_manager_iter s gs env) = true := by
  unfold connection_manager_iter connect
  by_cases hc : env.connect_ok = true
  · simp only [hc, if_true]
    split
    · exact h
    · refine tsAll_init_subs _ gs env ?_
      rw [tsAll_heap_eq (s := s)]
      · exact h
      · rfl
  · simp only [if_neg hc]
    split
    · exact h
    · exact tsAll_disconnect s env h

theorem tsAll_stop (s : ClientState) (env : Env) (h : tsAll s = true) :
    tsAll (stop s env) = true := by
  unfold stop
  split
  · exact h
  · refine tsAll_disconnect _ env ?_
    rw [tsAll_heap_eq (s := s)]
    · exact h
    · rfl

/-! ### The initial data store -/

theorem init_loop_keys (now : Nat) (cfg : List TagConfig) :
    ∀ (next : Nat) (st : List (String × Ref)) (hp : List (Ref × LiveTag)) (n : String),
      (alookup (init_data_store_loop now cfg next st hp).1 n).isSome = true ↔
        n ∈ cfg.map (·.name) ∨ (alookup st n).isSome = true := by
  induction cfg with
  | nil =>
      intro next st hp n
      simp [init_data_store_loop]
  | cons tag rest ih =>
      intro next st hp n
      simp only [init_data_store_loop]
      rw [ih, alookup_dinsert_isSome]
      simp only [List.map_cons, List.mem_cons]
      tauto

theorem init_loop_deref (now : Nat) (cfg : List TagConfig) :
    ∀ (next : Nat) (st : List (String × Ref)) (hp : List (Ref × LiveTag)),
      (∀ p ∈ st, p.2 < next) →
      (∀ q ∈ hp, q.1 < next) →
      (∀ n r, alookup st n = some r →
        ∃ t, alookup hp r = some t ∧ t.name = n ∧ t.value = none ∧
          t.status = "Uncertain" ∧ t.timestamp = some now) →
      ∀ n r, alookup (init_data_store_loop now cfg next st hp).1 n = some r →
        ∃ t, alookup (init_data_store_loop now cfg next st hp).2 r = some t ∧
          t.name = n ∧ t.value = none ∧ t.status = "Uncertain" ∧
          t.timestamp = some now := by
  induction cfg with
  | nil =>
      intro next st hp hst hhp hinv n r hl
      simp only [init_data_store_loop] at hl ⊢
      exact hinv n r hl
  | cons tag rest ih =>
      intro next st hp hst hhp hinv n r hl
      simp only [init_data_store_loop] at hl ⊢
      refine ih (next + 1) _ _ ?_ ?_ ?_ n r hl
      · intro p hp2
        rcases mem_dinsert _ _ _ _ hp2 with h1 | h1
        · rw [h1]
          exact Nat.lt_succ_self next
        · exact Nat.lt_succ_of_lt (hst p h1)
      · intro q hq
        rcases List.mem_append.mp hq with h1 | h1
        · exact Nat.lt_succ_of_lt (hhp q h1)
        · simp only [List.mem_singleton] at h1
          rw [h1]
          exact Nat.lt_succ_self next
      · intro n2 r2 hl2
        by_cases hn : n2 = tag.name
        · subst hn
          rw [alookup_dinsert_self] at hl2
          have hr2 : r2 = next := by
            injection hl2 with hh
            exact hh.symm
          refine ⟨initialTag now tag, ?_, rfl, rfl, rfl, rfl⟩
          rw [hr2, alookup_append_none _ _ _ (alookup_none_of_keys_lt hp next hhp)]
          simp [alookup]
        · rw [alookup_dinsert_ne _ _ _ _ hn] at hl2
          obtain ⟨t, ht, hprops⟩ := hinv n2 r2 hl2
          exact ⟨t, alookup_append_some _ _ _ _ ht, hprops⟩

/-- The key set of the freshly initialized data store is exactly the set of
configured tag names. -/
theorem mk_store_keys (gs : List TagGroup) (now : Nat) (n : String) :
    (alookup (mkOpcuaClient gs now).store n).isSome = true ↔ n ∈ tagNames gs := by
  show (alookup (init_data_store_loop now (configTags gs) 0 [] []).1 n).isSome = true ↔ _
  rw [init_loop_keys]
  simp [tagNames, alookup]

/-- Every entry of the freshly initialized data store dereferences to a
null-value, "Uncertain", timestamp-now record named after its key. -/
theorem mk_deref (gs : List TagGroup) (now : Nat) (n : String) (r : Ref)
    (h : alookup (mkOpcuaClient gs now).store n = some r) :
    ∃ t, readRef (mkOpcuaClient gs now) r = some t ∧ t.name = n ∧ t.value = none ∧
      t.status = "Uncertain" ∧ t.timestamp = some now := by
  refine init_loop_deref now (configTags gs) 0 [] [] ?_ ?_ ?_ n r h
  · intro p hp
    simp at hp
  · intro q hq
    simp at hq
  · intro n2 r2 h2
    simp [alookup] at h2

/-! ### Remaining helper lemmas -/

theorem alookup_mem {α β : Type} [DecidableEq α] (l : List (α × β)) (x : α) (v : β)
    (h : alookup l x = some v) : (x, v) ∈ l := by
  induction l with
  | nil => simp [alookup] at h
  | cons p rest ih =>
      obtain ⟨k, w⟩ := p
      by_cases hk : k = x
      · subst hk
        simp only [alookup, if_pos rfl] at h
        injection h with h
        rw [← h]
        exact List.mem_cons_self _ _
      · simp only [alookup, if_neg hk] at h
        exact List.mem_cons_of_mem _ (ih h)

theorem read_value_state (s : ClientState) (env : Env) (nid : String) :
    (read_value s env nid).1 = s := by
  unfold read_value
  split
  · rfl
  · split
    · rfl
    · split <;> rfl

theorem write_value_state (s : ClientState) (env : Env) (nid : String) (v : Int) :
    (write_value s env nid v).1 = s := by
  unfold write_value
  split
  · rfl
  · split
    · rfl
    · split <;> rfl

theorem connectResultState_store_eq (s : ClientState) (env : Env) :
    (connectResultState s env).store = s.store := by
  unfold connectResultState connect
  by_cases hc : env.connect_ok = true
  · simp only [hc, if_true]
  · simp only [if_neg hc]

theorem stop_not_running (s : ClientState) (env : Env) (h : s.running = false) :
    stop s env = s := by
  unfold stop
  rw [h]
  rfl

theorem stop_running_false (s : ClientState) (env : Env) (h : s.running = true) :
    (stop s env).running = false := by
  unfold stop
  rw [h]
  show (disconnect { s with running := false } env).running = false
  rw [disconnect_running_eq]

theorem init_loop_tsAll (now : Nat) (cfg : List TagConfig) :
    ∀ (next : Nat) (st : List (String × Ref)) (hp : List (Ref × LiveTag)),
      hp.all (fun p => p.2.timestamp.isSome) = true →
      ((init_data_store_loop now cfg next st hp).2).all
        (fun p => p.2.timestamp.isSome) = true := by
  induction cfg with
  | nil =>
      intro next st hp h
      simpa [init_data_store_loop] using h
  | cons tag rest ih =>
      intro next st hp h
      simp only [init_data_store_loop]
      refine ih _ _ _ ?_
      rw [List.all_append]
      simp [h, initialTag]

theorem mk_tsAll (gs : List TagGroup) (now : Nat) : tsAll (mkOpcuaClient gs now) = true := by
  show ((init_data_store_loop now (configTags gs) 0 [] []).2).all
    (fun p => p.2.timestamp.isSome) = true
  exact init_loop_tsAll now (configTags gs) 0 [] [] rfl

/-! ### Claims -/

/-- C1: the key set of the tag cache equals the set of configured tag names
at every point in the process lifetime.  Initialization creates a store
whose keys are exactly the configured names, and no operation —
notification update, initial bulk read, connect, disconnect, subscription
establishment, a whole supervisory-loop pass, start, stop, on-demand read
or write — ever changes the `_data_store` mapping; `get_all_tags` returns
exactly the store's values, so the collection it returns always has that
key set. -/
theorem C1_cache_key_set_fixed :
    (∀ gs now n, (alookup (mkOpcuaClient gs now).store n).isSome = true ↔ n ∈ tagNames gs)
    ∧ (∀ s node dv now, (update_tag_value_from_node s node dv now).store = s.store)
    ∧ (∀ s nodes env, (populate_initial_data s nodes env).store = s.store)
    ∧ (∀ s env, (connectResultState s env).store = s.store)
    ∧ (∀ s env, (disconnect s env).store = s.store)
    ∧ (∀ s gs env, (init_subscriptions s gs env).store = s.store)
    ∧ (∀ s gs env, (connection_manager_iter s gs env).store = s.store)
    ∧ (∀ s env, (stop s env).store = s.store)
    ∧ (∀ s, (start s).store = s.store)
    ∧ (∀ s env nid, (read_value s env nid).1 = s)
    ∧ (∀ s env nid v, (write_value s env nid v).1 = s)
    ∧ (∀ s, get_all_tags s = s.store.map Prod.snd) :=
  ⟨mk_store_keys, update_store_eq, populate_store_eq, connectResultState_store_eq,
   disconnect_store_eq, init_subs_store_eq, iter_store_eq, stop_store_eq,
   start_store_eq, read_value_state, write_value_state, fun _ => rfl⟩

/-- C2: a data-change notification whose node is absent from the current
`_node_map` leaves the whole state — in particular every tag cache entry —
unchanged; the update is a total function of the state, so it does not
raise. -/
theorem C2_unmapped_notification_noop (s : ClientState) (node : NodeId)
    (dv : DataValue) (now : Nat) (h : alookup s.node_map node = none) :
    update_tag_value_from_node s node dv now = s := by
  unfold update_tag_value_from_node
  rw [h]

theorem C2_witness :
    alookup s0A.node_map 5 = none ∧ update_tag_value_from_node s0A 5 dvGood 9 = s0A :=
  ⟨rfl, C2_unmapped_notification_noop s0A 5 dvGood 9 rfl⟩

/-- C4 counterexample: with one configured tag `A`, the freshly initialized
cache entry for `A` has value null as claimed, but its quality/status is
"Uncertain", not the claimed "NoData". -/
theorem C4_counterexample :
    (get_tag_by_name (mkOpcuaClient cfgA 0) "A").bind (readRef (mkOpcuaClient cfgA 0)) =
      some { name := "A", node_id := "n1", value := none, status := "Uncertain",
             timestamp := some 0 } ∧
    "Uncertain" ≠ "NoData" :=
  ⟨by decide, by decide⟩

/-- C4 amended: in the state produced by client initialization, before any
connection has succeeded (`is_connected` is false), every configured tag's
cache entry has value null and status "Uncertain" (not NoData), stamped
with the initialization time. -/
theorem C4_amended_initial_entries (gs : List TagGroup) (now : Nat) (n : String)
    (r : Ref) (h : alookup (mkOpcuaClient gs now).store n = some r) :
    (mkOpcuaClient gs now).is_connected = false ∧
    ∃ t, readRef (mkOpcuaClient gs now) r = some t ∧ t.value = none ∧
      t.status = "Uncertain" ∧ t.timestamp = some now := by
  refine ⟨rfl, ?_⟩
  obtain ⟨t, ht, _, hv, hs, hts⟩ := mk_deref gs now n r h
  exact ⟨t, ht, hv, hs, hts⟩

theorem C4_witness :
    alookup (mkOpcuaClient cfgA 0).store "A" = some 0 ∧
    (mkOpcuaClient cfgA 0).is_connected = false ∧
    ∃ t, readRef (mkOpcuaClient cfgA 0) 0 = some t ∧ t.value = none ∧
      t.status = "Uncertain" ∧ t.timestamp = some 0 :=
  ⟨by decide, (C4_amended_initial_entries cfgA 0 "A" 0 (by decide)).1,
   (C4_amended_initial_entries cfgA 0 "A" 0 (by decide)).2⟩

/-- C8: calling stop() when the client is not running returns the state
completely unchanged (running flag, connection state, node map and every
cache entry), and stop is idempotent. -/
theorem C8_stop_noop_idempotent (s : ClientState) (env : Env) :
    (s.running = false → stop s env = s) ∧ stop (stop s env) env = stop s env := by
  constructor
  · intro h
    exact stop_not_running s env h
  · by_cases h : s.running = true
    · exact stop_not_running _ env (stop_running_false s env h)
    · have hf : s.running = false := by
        simpa using h
      rw [stop_not_running s env hf]
      exact stop_not_running s env hf

theorem C8_witness :
    s0A.running = false ∧ stop s0A envLive = s0A ∧
    stop (stop s0A envLive) envLive = stop s0A envLive :=
  ⟨rfl, (C8_stop_noop_idempotent s0A envLive).1 rfl,
   (C8_stop_noop_idempotent s0A envLive).2⟩

/-- C10: when the client is connected, disconnect always completes the
teardown — for every transport environment, including one whose transport
disconnect raises (the exception is caught and the `finally` block still
runs): on return the connected flag is false, the subscription reference
is cleared and the node map is empty.  When already disconnected it
changes no state at all. -/
theorem C10_disconnect_teardown (s : ClientState) (env : Env) :
    (s.is_connected = true →
      (disconnect s env).is_connected = false ∧
      (disconnect s env).subscription = false ∧
      (disconnect s env).node_map = []) ∧
    (s.is_connected = false → disconnect s env = s) := by
  constructor
  · intro h
    unfold disconnect
    rw [h]
    exact ⟨rfl, rfl, rfl⟩
  · intro h
    unfold disconnect
    rw [h]
    rfl

theorem C10_witness :
    envRaises.disconnect_raises = true ∧
    sLiveA.is_connected = true ∧
    (disconnect sLiveA envRaises).is_connected = false ∧
    (disconnect sLiveA envRaises).subscription = false ∧
    (disconnect sLiveA envRaises).node_map = [] ∧
    s0A.is_connected = false ∧ disconnect s0A envRaises = s0A := by
  refine ⟨rfl, rfl, ?_, ?_, ?_, rfl, ?_⟩
  · exact ((C10_disconnect_teardown sLiveA envRaises).1 rfl).1
  · exact ((C10_disconnect_teardown sLiveA envRaises).1 rfl).2.1
  · exact ((C10_disconnect_teardown sLiveA envRaises).1 rfl).2.2
  · exact (C10_disconnect_teardown s0A envRaises).2 rfl

/-- C3 counterexample: run one healthy session (tag `A` becomes Good/10),
tear the session down, and let the next supervisory pass fail its connect
attempt; after that pass's teardown, tag `A` still reads status "Good"
with the old value and timestamp — not the claimed quality NoData. -/
theorem C3_counterexample :
    sRetryA.is_connected = false ∧
    (get_tag_by_name sRetryA "A").bind (readRef sRetryA) =
      some { name := "A", node_id := "n1", value := some 10, status := "Good",
             timestamp := some 5 } ∧
    "Good" ≠ "NoData" :=
  ⟨by decide, by decide, by decide⟩

/-- C3 amended: when a connect or subscription attempt fails and the
supervisory loop performs its teardown, the teardown clears only
connection-scoped state; every tag cache entry keeps its previous value,
quality and timestamp — nothing is reset to NoData, so values from before
the disconnect are still presented during the reconnect window. -/
theorem C3_amended_teardown_keeps_entries (s : ClientState) (gs : List TagGroup)
    (env : Env) :
    (disconnect s env).store = s.store ∧ (disconnect s env).heap = s.heap ∧
    (env.connect_ok = false → s.is_connected = false →
      connection_manager_iter s gs env = disconnect s env) := by
  refine ⟨disconnect_store_eq s env, disconnect_heap_eq s env, ?_⟩
  intro hc hnc
  unfold connection_manager_iter connect
  rw [hc, hnc]
  rfl

theorem C3_witness :
    envDown.connect_ok = false ∧ sDropA.is_connected = false ∧
    (disconnect sDropA envDown).heap = sDropA.heap ∧
    connection_manager_iter sDropA cfgA envDown = disconnect sDropA envDown :=
  ⟨rfl, by decide, (C3_amended_teardown_keeps_entries sDropA cfgA envDown).2.1,
   (C3_amended_teardown_keeps_entries sDropA cfgA envDown).2.2 rfl (by decide)⟩

/-- C5 counterexample: with configured tags `A`, `B`, the query for an
unconfigured name yields NotFound (None) as claimed, but the configured,
still-silent tag `B` yields an entry whose status is "Uncertain" — not the
claimed quality NoData. -/
theorem C5_counterexample :
    get_tag_by_name (mkOpcuaClient cfgAB 3) "unconfigured" = none ∧
    ((get_tag_by_name (mkOpcuaClient cfgAB 3) "B").bind
        (readRef (mkOpcuaClient cfgAB 3))).map (fun t => t.status) = some "Uncertain" ∧
    "Uncertain" ≠ "NoData" :=
  ⟨by decide, by decide, by decide⟩

/-- C5 amended: `get_tag_by_name` yields None (NotFound) exactly when the
name is not a configured tag; a configured tag that has not yet received
data yields an entry — never NotFound — with null value and status
"Uncertain" (not NoData).  Since no operation changes the store (C1), the
NotFound-iff-unconfigured correspondence persists for the whole process
lifetime. -/
theorem C5_amended_get_tag (gs : List TagGroup) (now : Nat) (name : String) :
    (get_tag_by_name (mkOpcuaClient gs now) name = none ↔ name ∉ tagNames gs)
    ∧ (name ∈ tagNames gs →
        ∃ r t, get_tag_by_name (mkOpcuaClient gs now) name = some r ∧
          readRef (mkOpcuaClient gs now) r = some t ∧
          t.status = "Uncertain" ∧ t.value = none) := by
  have hk := mk_store_keys gs now name
  constructor
  · constructor
    · intro h hmem
      unfold get_tag_by_name at h
      rw [h] at hk
      simp at hk
      exact hk hmem
    · intro h
      unfold get_tag_by_name
      cases hc : alookup (mkOpcuaClient gs now).store name with
      | none => rfl
      | some r =>
          exfalso
          refine h (hk.mp ?_)
          rw [hc]
          rfl
  · intro hmem
    have hs : (alookup (mkOpcuaClient gs now).store name).isSome = true := hk.mpr hmem
    obtain ⟨r, hr⟩ := Option.isSome_iff_exists.mp hs
    obtain ⟨t, ht, _, hv, hstat, _⟩ := mk_deref gs now name r hr
    exact ⟨r, t, hr, ht, hstat, hv⟩

theorem C5_witness :
    (get_tag_by_name (mkOpcuaClient cfgAB 3) "Z" = none ↔ "Z" ∉ tagNames cfgAB) ∧
    "B" ∈ tagNames cfgAB ∧
    ∃ r t, get_tag_by_name (mkOpcuaClient cfgAB 3) "B" = some r ∧
      readRef (mkOpcuaClient cfgAB 3) r = some t ∧
      t.status = "Uncertain" ∧ t.value = none :=
  ⟨(C5_amended_get_tag cfgAB 3 "Z").1, by decide,
   (C5_amended_get_tag cfgAB 3 "B").2 (by decide)⟩

/-- C6 counterexample: starting from the fresh client, a successful
`connect()` yields a state in which `is_connected` is already true while
the subscription has not yet been established (`subscription` is false) —
the claim says `isConnected()` returns false in that window. -/
theorem C6_counterexample :
    connect s0A envLive = Except.ok { s0A with is_connected := true } ∧
    ({ s0A with is_connected := true }).is_connected = true ∧
    ({ s0A with is_connected := true }).subscription = false :=
  ⟨rfl, rfl, rfl⟩

/-- C6 amended: `is_connected` returns true from the moment `connect()`
succeeds — already in the Connected state, before subscription
establishment — not only once the subscription is active; it is false in
the freshly initialized state, false while `connect()` keeps failing, and
false after every disconnect. -/
theorem C6_amended_is_connected (s : ClientState) (gs : List TagGroup)
    (now : Nat) (env : Env) :
    (mkOpcuaClient gs now).is_connected = false
    ∧ (env.connect_ok = true →
        connectResultState s env = { s with is_connected := true })
    ∧ (env.connect_ok = false → connectResultState s env = s)
    ∧ (disconnect s env).is_connected = false := by
  refine ⟨rfl, ?_, ?_, ?_⟩
  · intro h
    unfold connectResultState connect
    rw [h]
    rfl
  · intro h
    unfold connectResultState connect
    rw [h]
    rfl
  · unfold disconnect
    split
    · rfl
    · rename_i h
      simpa using h

theorem C6_witness :
    envLive.connect_ok = true ∧
    connectResultState s0A envLive = { s0A with is_connected := true } ∧
    envDown.connect_ok = false ∧
    connectResultState s0A envDown = s0A ∧
    (disconnect sLiveA envLive).is_connected = false :=
  ⟨rfl, (C6_amended_is_connected s0A cfgA 0 envLive).2.1 rfl, rfl,
   (C6_amended_is_connected s0A cfgA 0 envDown).2.2.1 rfl,
   (C6_amended_is_connected sLiveA cfgA 0 envLive).2.2.2⟩

/-- C7 counterexample: in a connected, still-silent client, `get_all_tags`
returns the reference list `[0]`; dereferencing `0` before a later update
gives the Uncertain/null record, and dereferencing the same returned
reference after the update gives the Good/10 record — the caller observes
the returned tag's value, quality and timestamp change after the call
returned, so the result is not an immutable snapshot. -/
theorem C7_counterexample :
    get_all_tags sSilentA = [0] ∧
    readRef sSilentA 0 =
      some { name := "A", node_id := "n1", value := none, status := "Uncertain",
             timestamp := some 0 } ∧
    readRef (update_tag_value_from_node sSilentA 1 dvGood 9) 0 =
      some { name := "A", node_id := "n1", value := some 10, status := "Good",
             timestamp := some 5 } ∧
    (some { name := "A", node_id := "n1", value := none, status := "Uncertain",
            timestamp := some 0 } : Option LiveTag) ≠
      some { name := "A", node_id := "n1", value := some 10, status := "Good",
             timestamp := some 5 } :=
  ⟨by decide, by decide, by decide, by decide⟩

/-- C7 amended: `get_all_tags` returns a fresh list, so the list itself
(its membership and order) is unaffected by later updates, but its
elements alias the live cache objects: an update applied after the call is
visible in place, as a whole-triple replacement, through the previously
returned references (and likewise through `get_tag_by_name`). -/
theorem C7_amended_snapshot_aliasing (s : ClientState) (node : NodeId)
    (dv : DataValue) (now : Nat) (tag_name : String) (r : Ref) (t : LiveTag)
    (h1 : alookup s.node_map node = some tag_name) (h2 : tag_name ≠ "")
    (h3 : alookup s.store tag_name = some r) (h4 : readRef s r = some t) :
    get_all_tags (update_tag_value_from_node s node dv now) = get_all_tags s ∧
    r ∈ get_all_tags s ∧
    readRef (update_tag_value_from_node s node dv now) r =
      some { t with value := dv.value, status := dv.statusName,
                    timestamp := some (dv.sourceTimestamp.getD now) } := by
  refine ⟨?_, ?_, ?_⟩
  · unfold get_all_tags
    rw [update_store_eq]
  · exact List.mem_map.mpr ⟨(tag_name, r), alookup_mem _ _ _ h3, rfl⟩
  · show alookup (update_tag_value_from_node s node dv now).heap r = _
    rw [update_heap_hit s node dv now tag_name r h1 h2 h3, alookup_aupdate]
    rw [if_pos rfl]
    unfold readRef at h4
    rw [h4]
    rfl

theorem C7_witness :
    alookup sSilentA.node_map 1 = some "A" ∧
    alookup sSilentA.store "A" = some 0 ∧
    readRef sSilentA 0 = some (initialTag 0 { name := "A", node_id := "n1" }) ∧
    get_all_tags (update_tag_value_from_node sSilentA 1 dvGood 9) = get_all_tags sSilentA ∧
    0 ∈ get_all_tags sSilentA ∧
    readRef (update_tag_value_from_node sSilentA 1 dvGood 9) 0 =
      some { initialTag 0 { name := "A", node_id := "n1" } with
             value := dvGood.value, status := dvGood.statusName,
             timestamp := some (dvGood.sourceTimestamp.getD 9) } := by
  have h := C7_amended_snapshot_aliasing sSilentA 1 dvGood 9 "A" 0
      (initialTag 0 { name := "A", node_id := "n1" })
      (by decide) (by decide) (by decide) (by decide)
  exact ⟨by decide, by decide, by decide, h.1, h.2.1, h.2.2⟩

/-- C9: every tag cache entry carries a non-null timestamp at all times:
initialization stamps each entry with the current time, every operation
preserves the all-timestamps-present invariant, and an applied update
stores the notification's source timestamp or, when it is null, the
current time (`Option.getD`). -/
theorem C9_timestamps_never_null (gs : List TagGroup) (now : Nat) (s : ClientState)
    (node : NodeId) (dv : DataValue) (nodes : List NodeId) (env : Env) :
    tsAll (mkOpcuaClient gs now) = true ∧
    (tsAll s = true → tsAll (update_tag_value_from_node s node dv now) = true) ∧
    (tsAll s = true → tsAll (populate_initial_data s nodes env) = true) ∧
    (tsAll s = true → tsAll (init_subscriptions s gs env) = true) ∧
    (tsAll s = true → tsAll (connection_manager_iter s gs env) = true) ∧
    (tsAll s = true → tsAll (disconnect s env) = true) ∧
    (tsAll s = true → tsAll (stop s env) = true) :=
  ⟨mk_tsAll gs now, tsAll_update s node dv now, tsAll_populate s nodes env,
   tsAll_init_subs s gs env, tsAll_iter s gs env, tsAll_disconnect s env,
   tsAll_stop s env⟩

theorem C9_witness :
    tsAll (mkOpcuaClient cfgA 9) = true ∧ tsAll sSilentA = true ∧
    tsAll (update_tag_value_from_node sSilentA 1 dvGood 9) = true ∧
    tsAll (populate_initial_data sSilentA [1] envLive) = true :=
  ⟨(C9_timestamps_never_null cfgA 9 sSilentA 1 dvGood [1] envLive).1, by decide,
   (C9_timestamps_never_null cfgA 9 sSilentA 1 dvGood [1] envLive).2.1 (by decide),
   (C9_timestamps_never_null cfgA 9 sSilentA 1 dvGood [1] envLive).2.2.1 (by decide)⟩

end JupiterScada
